import Mathlib

/-!
Shallow embedding of the ideal-state maintenance scheduler of the vespa
distributor (storage/src/vespa/storage/distributor/idealstatemanager.cpp).

State checkers themselves live outside the excerpt; they are modelled
abstractly as functions from an evaluation context to a verdict plus the
statistics events they record.  Mutable effects of the C++ code (the
statistics tracker, the error log, the `_has_logged_phantom_replica_warning`
member) are modelled by explicit state passing: every manager operation
returns, next to its C++ return value, the list of statistics events
accumulated, the names of the checkers actually evaluated, the anomaly log
lines emitted, and the updated warning flag.
-/

/-- Lifecycle state of a node in the cluster state (lib::State). -/
inductive NodeState where
  | Up
  | Initializing
  | Retired
  | Maintenance
  | Down
  | Stopping
deriving DecidableEq, Repr

/-- lib::State::oneOf("uir"): the node is Up, Initializing or Retired,
the only states a bucket-database replica may legitimately reference. -/
def NodeState.oneOf_uir : NodeState → Bool
  | NodeState.Up => true
  | NodeState.Initializing => true
  | NodeState.Retired => true
  | _ => false

/-- BucketDatabase::Entry: a bucket id, the replica node indices
(getNodes / getRawNodes), and the validity flag (Entry::valid). -/
structure Entry where
  bucketId : Nat
  nodes : List Nat
  valid : Bool
deriving DecidableEq, Repr

/-- A default-constructed, invalid entry (the state of Context::entry
before the manager assigns a primary entry). -/
def Entry.invalid : Entry :=
  { bucketId := 0, nodes := [], valid := false }

/-- MaintenanceOperation::Type, with OPERATION_COUNT as the sentinel
"no operation" tag used by prioritize. -/
inductive MaintenanceOpType where
  | DELETE_BUCKET
  | MERGE_BUCKET
  | SPLIT_BUCKET
  | JOIN_BUCKET
  | SET_BUCKET_STATE
  | GARBAGE_COLLECTION
  | OPERATION_COUNT
deriving DecidableEq, Repr

/-- MaintenancePriority::requiresMaintenance(): the priority value is not
NO_MAINTENANCE_NEEDED (modelled as the numeric value 0). -/
def requiresMaintenance (p : Nat) : Bool := p != 0

/-- IdealStateOperation: the materialized repair operation, carrying its
message priority, whether setIdealStateManager has bound it back to the
manager, and an abstract payload identifying the concrete operation. -/
structure IdealStateOperation where
  priority : Nat
  hasManagerRef : Bool
  payload : Nat
deriving DecidableEq, Repr

/-- StateChecker::Result: a maintenance priority (0 meaning no maintenance
needed), an operation-type tag, and the lazily materialized operation
(createOperation, none when no operation can be constructed). -/
structure CheckResult where
  priority : Nat
  opType : MaintenanceOpType
  createOperation : Option IdealStateOperation
deriving DecidableEq, Repr

/-- StateChecker::Result::noMaintenanceNeeded(). -/
def CheckResult.noMaintenanceNeeded : CheckResult :=
  { priority := 0, opType := MaintenanceOpType.OPERATION_COUNT, createOperation := none }

/-- StateChecker::Context, as read by the checkers: target bucket id, the
fetched family entries, the sibling entry, the resolved primary entry and
the cluster state (node index to node state). -/
structure Context where
  bucketId : Nat
  entries : List Entry
  siblingEntry : Option Entry
  entry : Entry
  systemState : Nat → NodeState

/-- A state checker: a name (used by the activation configuration) and the
check function, returning its verdict together with the statistics events
it records on the tracker (modelled as abstract numeric events). -/
structure StateChecker where
  name : String
  check : Context → CheckResult × List Nat

/-- The bucket-space view the manager evaluates against: family fetch
(BucketDatabase::getAll), point lookup (BucketDatabase::get), the sibling
bucket id computation, and the cluster state snapshot. -/
structure DistributorBucketSpace where
  getAll : Nat → List Entry
  get : Nat → Option Entry
  siblingOf : Nat → Nat
  clusterState : Nat → NodeState

/-- IdealStateManager: the ordered checker chain, the dedicated split
checker member (_splitBucketStateChecker), and the per-checker-name
activation configuration (getConfig().stateCheckerIsActive). -/
structure IdealStateManager where
  stateCheckers : List StateChecker
  splitBucketStateChecker : StateChecker
  stateCheckerIsActive : String → Bool

/-- canOverwriteResult: a candidate verdict may replace the running best
only when the best does not require maintenance and the candidate does. -/
def canOverwriteResult (existing candidate : CheckResult) : Bool :=
  !(requiresMaintenance existing.priority) && requiresMaintenance candidate.priority

/-- Context construction plus fillParentAndChildBuckets (db.getAll) and
fillSiblingBucket (db.get of the sibling bucket); the primary entry starts
out invalid. -/
def mkContext (space : DistributorBucketSpace) (bucket : Nat) : Context :=
  { bucketId := bucket
  , entries := space.getAll bucket
  , siblingEntry := space.get (space.siblingOf bucket)
  , entry := Entry.invalid
  , systemState := space.clusterState }

/-- getEntryForPrimaryBucket: the first fetched entry whose bucket id
exactly matches the target and whose replica list is non-empty. -/
def getEntryForPrimaryBucket (c : Context) : Option Entry :=
  c.entries.find? (fun e => e.bucketId == c.bucketId && !e.nodes.isEmpty)

/-- The loop of runStateCheckers: walk the checker chain in order, skip
checkers the configuration deactivates, accumulate statistics and the names
of the checkers evaluated, and overwrite the running best verdict exactly
when canOverwriteResult allows it. -/
def runCheckersAux (cfg : String → Bool) (c : Context) :
    List StateChecker → CheckResult → CheckResult × List Nat × List String
  | [], best => (best, [], [])
  | chk :: rest, best =>
    if cfg chk.name then
      let rs := chk.check c
      let best2 := if canOverwriteResult best rs.1 then rs.1 else best
      let out := runCheckersAux cfg c rest best2
      (out.1, rs.2 ++ out.2.1, chk.name :: out.2.2)
    else
      runCheckersAux cfg c rest best

/-- IdealStateManager::runStateCheckers. -/
def runStateCheckers (m : IdealStateManager) (c : Context) :
    CheckResult × List Nat × List String :=
  runCheckersAux m.stateCheckerIsActive c m.stateCheckers CheckResult.noMaintenanceNeeded

/-- The node loop of verify_only_live_nodes_in_context: for every replica
node whose state is not Up/Initializing/Retired, emit a log line
(bucket id, node index) and set the warning flag. -/
def verify_scan (sys : Nat → NodeState) (bid : Nat) :
    List Nat → List (Nat × Nat) × Bool
  | [] => ([], false)
  | n :: rest =>
    let tail := verify_scan sys bid rest
    if (sys n).oneOf_uir then tail else ((bid, n) :: tail.1, true)

/-- IdealStateManager::verify_only_live_nodes_in_context: returns the log
lines emitted and the updated _has_logged_phantom_replica_warning flag;
when the flag is already set the function returns immediately. -/
def verify_only_live_nodes_in_context (flag : Bool) (c : Context) :
    List (Nat × Nat) × Bool :=
  if flag then ([], true)
  else verify_scan c.systemState c.entry.bucketId c.entry.nodes

/-- Output of generateHighestPriority: the winning verdict plus the modelled
side effects (statistics, evaluated checker names, anomaly log lines, and
the updated warning flag). -/
structure EvalOut where
  result : CheckResult
  stats : List Nat
  invoked : List String
  logs : List (Nat × Nat)
  flag : Bool
deriving DecidableEq, Repr

/-- IdealStateManager::generateHighestPriority: build the context, resolve
the primary entry (short-circuiting to Result::noMaintenanceNeeded when
none exists), run the liveness validator, then run the checker chain. -/
def generateHighestPriority (m : IdealStateManager) (space : DistributorBucketSpace)
    (bucket : Nat) (flag : Bool) : EvalOut :=
  match getEntryForPrimaryBucket (mkContext space bucket) with
  | none =>
    { result := CheckResult.noMaintenanceNeeded
    , stats := [], invoked := [], logs := [], flag := flag }
  | some e =>
    { result := (runStateCheckers m { mkContext space bucket with entry := e }).1
    , stats := (runStateCheckers m { mkContext space bucket with entry := e }).2.1
    , invoked := (runStateCheckers m { mkContext space bucket with entry := e }).2.2
    , logs := (verify_only_live_nodes_in_context flag
                { mkContext space bucket with entry := e }).1
    , flag := (verify_only_live_nodes_in_context flag
                { mkContext space bucket with entry := e }).2 }

/-- MaintenancePriorityAndType: the final arbitrated decision. -/
structure MaintenancePriorityAndType where
  priority : Nat
  opType : MaintenanceOpType
deriving DecidableEq, Repr

/-- Output of prioritize: the decision plus the modelled side effects. -/
structure PrioritizeOut where
  decision : MaintenancePriorityAndType
  stats : List Nat
  invoked : List String
  logs : List (Nat × Nat)
  flag : Bool
deriving DecidableEq, Repr

/-- IdealStateManager::prioritize: the generated verdict's priority, paired
with its operation type when maintenance is required and with the
OPERATION_COUNT sentinel otherwise. -/
def prioritize (m : IdealStateManager) (space : DistributorBucketSpace)
    (bucket : Nat) (flag : Bool) : PrioritizeOut :=
  { decision :=
      { priority := (generateHighestPriority m space bucket flag).result.priority
      , opType :=
          if requiresMaintenance (generateHighestPriority m space bucket flag).result.priority
          then (generateHighestPriority m space bucket flag).result.opType
          else MaintenanceOpType.OPERATION_COUNT }
  , stats := (generateHighestPriority m space bucket flag).stats
  , invoked := (generateHighestPriority m space bucket flag).invoked
  , logs := (generateHighestPriority m space bucket flag).logs
  , flag := (generateHighestPriority m space bucket flag).flag }

/-- IdealStateOperation::setIdealStateManager: bind the operation back to
the manager that created it. -/
def setIdealStateManagerRef (op : IdealStateOperation) : IdealStateOperation :=
  { op with hasManagerRef := true }

/-- Output of generate: the materialized operation, if any, plus the
modelled side effects (the statistics tracker of generate is local to the
call and discarded by the C++ code, so it is not part of the output). -/
structure GenerateOut where
  op : Option IdealStateOperation
  invoked : List String
  logs : List (Nat × Nat)
  flag : Bool
deriving DecidableEq, Repr

/-- IdealStateManager::generate: materialize the winning verdict's
operation and bind it to the manager. -/
def generate (m : IdealStateManager) (space : DistributorBucketSpace)
    (bucket : Nat) (flag : Bool) : GenerateOut :=
  { op := ((generateHighestPriority m space bucket flag).result.createOperation).map
            setIdealStateManagerRef
  , invoked := (generateHighestPriority m space bucket flag).invoked
  , logs := (generateHighestPriority m space bucket flag).logs
  , flag := (generateHighestPriority m space bucket flag).flag }

/-- The loop of generateAll: every checker in the chain is evaluated
(the activation configuration is not consulted on this path) and each
materializable verdict contributes one operation, in chain order. -/
def generateAllAux (c : Context) :
    List StateChecker → List IdealStateOperation × List Nat × List String
  | [] => ([], [], [])
  | chk :: rest =>
    ( (match (chk.check c).1.createOperation with
       | some op => op :: (generateAllAux c rest).1
       | none => (generateAllAux c rest).1)
    , (chk.check c).2 ++ (generateAllAux c rest).2.1
    , chk.name :: (generateAllAux c rest).2.2 )

/-- Output of generateAll: the operations plus the modelled side effects;
generateAll performs no liveness validation, so its log output is empty and
the warning flag passes through unchanged. -/
structure GenerateAllOut where
  ops : List IdealStateOperation
  stats : List Nat
  invoked : List String
  logs : List (Nat × Nat)
  flag : Bool
deriving DecidableEq, Repr

/-- IdealStateManager::generateAll: build the context, resolve the primary
entry (returning an empty operation list when none exists), then run every
checker and collect one operation per materializable verdict. -/
def generateAll (m : IdealStateManager) (space : DistributorBucketSpace)
    (bucket : Nat) (flag : Bool) : GenerateAllOut :=
  match getEntryForPrimaryBucket (mkContext space bucket) with
  | none => { ops := [], stats := [], invoked := [], logs := [], flag := flag }
  | some e =>
    { ops := (generateAllAux { mkContext space bucket with entry := e } m.stateCheckers).1
    , stats := (generateAllAux { mkContext space bucket with entry := e } m.stateCheckers).2.1
    , invoked := (generateAllAux { mkContext space bucket with entry := e } m.stateCheckers).2.2
    , logs := []
    , flag := flag }

/-- The context generateInterceptingSplit builds around the caller-supplied
entry: no family fetch and no sibling lookup are performed, so those fields
keep their construction-time defaults. -/
def interceptContext (space : DistributorBucketSpace) (e : Entry) : Context :=
  { bucketId := e.bucketId
  , entries := []
  , siblingEntry := none
  , entry := e
  , systemState := space.clusterState }

/-- Output of generateInterceptingSplit: the operation, if any, plus the
modelled side effects (its statistics tracker is local and discarded). -/
structure InterceptOut where
  op : Option IdealStateOperation
  invoked : List String
  logs : List (Nat × Nat)
  flag : Bool
deriving DecidableEq, Repr

/-- IdealStateManager::generateInterceptingSplit: when the entry is valid,
consult only the split checker; a materialized operation receives the
caller-supplied priority and is bound back to the manager. -/
def generateInterceptingSplit (m : IdealStateManager) (space : DistributorBucketSpace)
    (e : Entry) (pri : Nat) (flag : Bool) : InterceptOut :=
  if e.valid then
    { op := ((m.splitBucketStateChecker.check (interceptContext space e)).1.createOperation).map
              (fun op => setIdealStateManagerRef { op with priority := pri })
    , invoked := [m.splitBucketStateChecker.name]
    , logs := []
    , flag := flag }
  else
    { op := none, invoked := [], logs := [], flag := flag }

/-- Whether a checker reports that maintenance is needed on a given
context. -/
def checkerFlags (c : Context) (chk : StateChecker) : Bool :=
  requiresMaintenance (chk.check c).1.priority

/-! Concrete fixtures used by the witnesses and the counterexample. -/

/-- A valid entry for bucket 1 with one replica on node 0. -/
def exEntry : Entry := { bucketId := 1, nodes := [0], valid := true }

/-- A bucket space whose database holds exactly the entry for bucket 1 and
whose nodes are all Up. -/
def exSpace : DistributorBucketSpace :=
  { getAll := fun b => if b == 1 then [exEntry] else []
  , get := fun _ => none
  , siblingOf := fun b => b
  , clusterState := fun _ => NodeState.Up }

/-- Same database as exSpace, but every node is Down. -/
def exSpaceDown : DistributorBucketSpace :=
  { getAll := fun b => if b == 1 then [exEntry] else []
  , get := fun _ => none
  , siblingOf := fun b => b
  , clusterState := fun _ => NodeState.Down }

/-- A bucket space with an empty database. -/
def exSpaceEmpty : DistributorBucketSpace :=
  { getAll := fun _ => []
  , get := fun _ => none
  , siblingOf := fun b => b
  , clusterState := fun _ => NodeState.Up }

/-- A checker that always reports maintenance at priority 2 with a
materializable split operation. -/
def exCheckerA : StateChecker :=
  { name := "a"
  , check := fun _ =>
      ({ priority := 2, opType := MaintenanceOpType.SPLIT_BUCKET
       , createOperation := some { priority := 0, hasManagerRef := false, payload := 1 } }, [1]) }

/-- A checker that always reports maintenance at the strictly higher
priority 5 with a materializable join operation. -/
def exCheckerB : StateChecker :=
  { name := "b"
  , check := fun _ =>
      ({ priority := 5, opType := MaintenanceOpType.JOIN_BUCKET
       , createOperation := some { priority := 0, hasManagerRef := false, payload := 2 } }, [2]) }

/-- A checker that always declines, while still recording a statistics
event. -/
def exCheckerNo : StateChecker :=
  { name := "n"
  , check := fun _ => (CheckResult.noMaintenanceNeeded, [3]) }

/-- A manager with the chain [exCheckerA, exCheckerB], all checkers
active. -/
def exManagerAB : IdealStateManager :=
  { stateCheckers := [exCheckerA, exCheckerB]
  , splitBucketStateChecker := exCheckerA
  , stateCheckerIsActive := fun _ => true }

/-- A manager with a single always-declining checker. -/
def exManagerNo : IdealStateManager :=
  { stateCheckers := [exCheckerNo]
  , splitBucketStateChecker := exCheckerNo
  , stateCheckerIsActive := fun _ => true }

/-- A manager whose single flagging checker is disabled by the
configuration. -/
def exManagerDisabledA : IdealStateManager :=
  { stateCheckers := [exCheckerA]
  , splitBucketStateChecker := exCheckerA
  , stateCheckerIsActive := fun _ => false }

/-- A manager with chain [exCheckerNo, exCheckerA] where only checker "a"
is disabled. -/
def exManagerMixed : IdealStateManager :=
  { stateCheckers := [exCheckerNo, exCheckerA]
  , splitBucketStateChecker := exCheckerA
  , stateCheckerIsActive := fun s => !(s == "a") }

/-! Helper lemmas about the checker fold, the liveness scan and the
generateAll loop. -/

/-- Once the running best verdict requires maintenance, no later checker
can overwrite it. -/
theorem runCheckersAux_result_of_flagged (cfg : String → Bool) (c : Context)
    (l : List StateChecker) (best : CheckResult)
    (h : requiresMaintenance best.priority = true) :
    (runCheckersAux cfg c l best).1 = best := by
  induction l with
  | nil => rfl
  | cons chk rest ih =>
    simp only [runCheckersAux]
    by_cases hc : cfg chk.name
    · simp only [hc, if_pos, canOverwriteResult, h, Bool.not_true, Bool.false_and,
        if_neg, Bool.false_eq_true, ite_false]
      exact ih
    · simp only [hc, Bool.false_eq_true, if_neg, ite_false]
      exact ih

/-- A checker whose name the configuration deactivates contributes nothing
to the fold: removing it from the chain leaves the outcome unchanged. -/
theorem runCheckersAux_skip (cfg : String → Bool) (c : Context)
    (chk : StateChecker) (h : cfg chk.name = false) :
    ∀ (pre post : List StateChecker) (best : CheckResult),
    runCheckersAux cfg c (pre ++ chk :: post) best
      = runCheckersAux cfg c (pre ++ post) best := by
  intro pre
  induction pre with
  | nil =>
    intro post best
    simp only [List.nil_append, runCheckersAux, h, Bool.false_eq_true, if_neg, ite_false]
  | cons k rest ih =>
    intro post best
    simp only [List.cons_append, runCheckersAux]
    by_cases hk : cfg k.name
    · simp [hk, ih]
    · simp [hk, ih]

/-- If no active checker in the chain reports that maintenance is needed,
the fold returns the running best unchanged. -/
theorem runCheckersAux_none_flag (cfg : String → Bool) (c : Context) :
    ∀ (l : List StateChecker) (best : CheckResult),
    (∀ k ∈ l, cfg k.name = true → requiresMaintenance (k.check c).1.priority = false) →
    (runCheckersAux cfg c l best).1 = best := by
  intro l
  induction l with
  | nil => intro best _; rfl
  | cons chk rest ih =>
    intro best h
    simp only [runCheckersAux]
    by_cases hc : cfg chk.name
    · have hchk := h chk (List.mem_cons_self chk rest) hc
      simp only [hc, if_pos, canOverwriteResult, hchk, Bool.and_false,
        Bool.false_eq_true, if_neg, ite_false]
      exact ih best (fun k hk => h k (List.mem_cons_of_mem chk hk))
    · simp only [hc, Bool.false_eq_true, if_neg, ite_false]
      exact ih best (fun k hk => h k (List.mem_cons_of_mem chk hk))

/-- The first active checker reporting that maintenance is needed supplies
the final verdict: active checkers before it decline, inactive ones are
skipped, and checkers after it cannot overwrite. -/
theorem runCheckersAux_first (cfg : String → Bool) (c : Context) :
    ∀ (pre : List StateChecker) (chk : StateChecker) (post : List StateChecker)
      (best : CheckResult),
    (∀ k ∈ pre, cfg k.name = true → requiresMaintenance (k.check c).1.priority = false) →
    cfg chk.name = true →
    requiresMaintenance (chk.check c).1.priority = true →
    requiresMaintenance best.priority = false →
    (runCheckersAux cfg c (pre ++ chk :: post) best).1 = (chk.check c).1 := by
  intro pre
  induction pre with
  | nil =>
    intro chk post best hpre hact hflag hbest
    simp only [List.nil_append, runCheckersAux, hact, if_pos]
    have hov : canOverwriteResult best (chk.check c).1 = true := by
      simp [canOverwriteResult, hbest, hflag]
    simp only [hov, if_pos, ite_true]
    exact runCheckersAux_result_of_flagged cfg c post (chk.check c).1 hflag
  | cons k rest ih =>
    intro chk post best hpre hact hflag hbest
    simp only [List.cons_append, runCheckersAux]
    by_cases hk : cfg k.name
    · have hkflag := hpre k (List.mem_cons_self k rest) hk
      have hov : canOverwriteResult best (k.check c).1 = false := by
        simp [canOverwriteResult, hkflag]
      simp only [hk, if_pos, hov, Bool.false_eq_true, if_neg, ite_false]
      exact ih chk post best (fun j hj => hpre j (List.mem_cons_of_mem k hj))
        hact hflag hbest
    · simp only [hk, Bool.false_eq_true, if_neg, ite_false]
      exact ih chk post best (fun j hj => hpre j (List.mem_cons_of_mem k hj))
        hact hflag hbest

/-- If some replica node in the scanned list is unavailable, the scan emits
at least one log line and reports the warning flag set. -/
theorem verify_scan_bad (sys : Nat → NodeState) (bid : Nat) :
    ∀ (l : List Nat) (n : Nat), n ∈ l → (sys n).oneOf_uir = false →
    (verify_scan sys bid l).1 ≠ [] ∧ (verify_scan sys bid l).2 = true := by
  intro l
  induction l with
  | nil => intro n hn; exact absurd hn (List.not_mem_nil n)
  | cons x rest ih =>
    intro n hn hbad
    simp only [verify_scan]
    rcases List.mem_cons.mp hn with rfl | hmem
    · simp only [hbad, Bool.false_eq_true, if_neg, ite_false]
      exact ⟨List.cons_ne_nil _ _, by trivial⟩
    · by_cases hx : (sys x).oneOf_uir
      · simp only [hx, if_pos, ite_true]
        exact ih n hmem hbad
      · simp only [hx, Bool.false_eq_true, if_neg, ite_false]
        exact ⟨List.cons_ne_nil _ _, by trivial⟩

/-- The operations collected by the generateAll loop are exactly the
materializable verdicts of the chain, in chain order. -/
theorem generateAllAux_ops (c : Context) :
    ∀ l : List StateChecker,
    (generateAllAux c l).1
      = List.filterMap (fun chk => (chk.check c).1.createOperation) l := by
  intro l
  induction l with
  | nil => rfl
  | cons chk rest ih =>
    simp only [generateAllAux, List.filterMap_cons]
    cases hop : (chk.check c).1.createOperation with
    | none => simpa [hop] using ih
    | some op => simpa [hop] using ih

/-- Counting helper: when a predicate decides exactly which elements map to
some value, the filterMap and the filter have the same length. -/
theorem length_filterMap_eq_length_filter {α β : Type} (f : α → Option β) (p : α → Bool) :
    ∀ l : List α, (∀ x ∈ l, (f x).isSome = p x) →
    (List.filterMap f l).length = (List.filter p l).length := by
  intro l
  induction l with
  | nil => intro _; rfl
  | cons x xs ih =>
    intro h
    have hx := h x (List.mem_cons_self x xs)
    have hxs := ih (fun y hy => h y (List.mem_cons_of_mem x hy))
    simp only [List.filterMap_cons, List.filter_cons]
    cases hf : f x with
    | none =>
      rw [hf] at hx
      simp only [Option.isSome_none] at hx
      simp only [← hx, Bool.false_eq_true, if_neg, ite_false]
      exact hxs
    | some b =>
      rw [hf] at hx
      simp only [Option.isSome_some] at hx
      simp only [← hx, if_pos, ite_true, List.length_cons]
      exact congrArg Nat.succ hxs

/-! The claims. -/

/-- C3: when the fetched database family contains no entry exactly matching
the target bucket id with a non-empty replica list, prioritize returns the
no-maintenance sentinel, generate returns no operation, and generateAll
returns an empty list, without invoking any checker and without
accumulating any statistics. -/
theorem claim_C3_missing_primary_short_circuit
    (m : IdealStateManager) (space : DistributorBucketSpace) (bucket : Nat) (flag : Bool)
    (h : getEntryForPrimaryBucket (mkContext space bucket) = none) :
    prioritize m space bucket flag =
      { decision := { priority := 0, opType := MaintenanceOpType.OPERATION_COUNT }
      , stats := [], invoked := [], logs := [], flag := flag } ∧
    requiresMaintenance (prioritize m space bucket flag).decision.priority = false ∧
    (generate m space bucket flag).op = none ∧
    (generate m space bucket flag).invoked = [] ∧
    generateAll m space bucket flag =
      { ops := [], stats := [], invoked := [], logs := [], flag := flag } := by
  refine ⟨?_, ?_, ?_, ?_, ?_⟩ <;>
    simp [prioritize, generate, generateAll, generateHighestPriority, h,
      requiresMaintenance, CheckResult.noMaintenanceNeeded]

/-- Witness for C3 at the empty database. -/
theorem claim_C3_witness :
    prioritize exManagerAB exSpaceEmpty 1 false =
      { decision := { priority := 0, opType := MaintenanceOpType.OPERATION_COUNT }
      , stats := [], invoked := [], logs := [], flag := false } ∧
    requiresMaintenance (prioritize exManagerAB exSpaceEmpty 1 false).decision.priority = false ∧
    (generate exManagerAB exSpaceEmpty 1 false).op = none ∧
    (generate exManagerAB exSpaceEmpty 1 false).invoked = [] ∧
    generateAll exManagerAB exSpaceEmpty 1 false =
      { ops := [], stats := [], invoked := [], logs := [], flag := false } :=
  claim_C3_missing_primary_short_circuit exManagerAB exSpaceEmpty 1 false (by decide)

/-- C9: the liveness validation runs only inside generateHighestPriority;
generateAll and generateInterceptingSplit emit no anomaly log and leave the
warning flag unchanged on every input. -/
theorem claim_C9_no_liveness_outside_prioritize_path
    (m : IdealStateManager) (space : DistributorBucketSpace) (bucket : Nat)
    (e : Entry) (pri : Nat) (flag : Bool) :
    (generateAll m space bucket flag).logs = [] ∧
    (generateAll m space bucket flag).flag = flag ∧
    (generateInterceptingSplit m space e pri flag).logs = [] ∧
    (generateInterceptingSplit m space e pri flag).flag = flag := by
  refine ⟨?_, ?_, ?_, ?_⟩
  · cases hgp : getEntryForPrimaryBucket (mkContext space bucket) with
    | none => simp [generateAll, hgp]
    | some x => simp [generateAll, hgp]
  · cases hgp : getEntryForPrimaryBucket (mkContext space bucket) with
    | none => simp [generateAll, hgp]
    | some x => simp [generateAll, hgp]
  · by_cases hv : e.valid <;> simp [generateInterceptingSplit, hv]
  · by_cases hv : e.valid <;> simp [generateInterceptingSplit, hv]

/-- C10: once the warning flag is set, verify_only_live_nodes_in_context
returns immediately on every context, so even a fresh, distinct anomaly
(here: a resolvable primary entry with a replica on an unavailable node) is
never logged again and the flag stays set permanently. -/
theorem claim_C10_suppression_is_permanent
    (m : IdealStateManager) (space : DistributorBucketSpace) (bucket : Nat) (e : Entry)
    (hce : getEntryForPrimaryBucket (mkContext space bucket) = some e)
    (n : Nat) (hn : n ∈ e.nodes)
    (hbad : (space.clusterState n).oneOf_uir = false) :
    (∀ c2 : Context, verify_only_live_nodes_in_context true c2 = ([], true)) ∧
    (generateHighestPriority m space bucket true).logs = [] ∧
    (generateHighestPriority m space bucket true).flag = true := by
  refine ⟨?_, ?_, ?_⟩
  · intro c2; simp [verify_only_live_nodes_in_context]
  · simp [generateHighestPriority, hce, verify_only_live_nodes_in_context]
  · simp [generateHighestPriority, hce, verify_only_live_nodes_in_context]

/-- Witness for C10: with every node Down and the flag already set, the
evaluation of bucket 1 logs nothing and keeps the flag. -/
theorem claim_C10_witness :
    (generateHighestPriority exManagerAB exSpaceDown 1 true).logs = [] ∧
    (generateHighestPriority exManagerAB exSpaceDown 1 true).flag = true :=
  ⟨(claim_C10_suppression_is_permanent exManagerAB exSpaceDown 1 exEntry
      (by decide) 0 (by decide) (by decide)).2.1,
   (claim_C10_suppression_is_permanent exManagerAB exSpaceDown 1 exEntry
      (by decide) 0 (by decide) (by decide)).2.2⟩

/-- C1: ordering precedence: when checker i is the first active checker in
the declared chain order to report that maintenance is needed and a later
checker j also reports maintenance with a strictly higher numeric priority
value, prioritize returns checker i's priority and operation type, not
checker j's, because a candidate verdict replaces the running best only
when the best does not require maintenance and the candidate does. -/
theorem claim_C1_ordering_precedence
    (m : IdealStateManager) (space : DistributorBucketSpace) (bucket : Nat) (flag : Bool)
    (e : Entry) (c : Context)
    (hce : getEntryForPrimaryBucket (mkContext space bucket) = some e)
    (hc : c = { mkContext space bucket with entry := e })
    (pre mid post : List StateChecker) (ci cj : StateChecker)
    (hchain : m.stateCheckers = pre ++ ci :: (mid ++ cj :: post))
    (hpre : ∀ k ∈ pre, m.stateCheckerIsActive k.name = true →
        requiresMaintenance (k.check c).1.priority = false)
    (hiact : m.stateCheckerIsActive ci.name = true)
    (hi : requiresMaintenance (ci.check c).1.priority = true)
    (hjact : m.stateCheckerIsActive cj.name = true)
    (hj : requiresMaintenance (cj.check c).1.priority = true)
    (hgt : (ci.check c).1.priority < (cj.check c).1.priority) :
    (prioritize m space bucket flag).decision =
      { priority := (ci.check c).1.priority, opType := (ci.check c).1.opType } ∧
    (prioritize m space bucket flag).decision.priority ≠ (cj.check c).1.priority := by
  subst hc
  have hres : (generateHighestPriority m space bucket flag).result
      = (ci.check { mkContext space bucket with entry := e }).1 := by
    simp only [generateHighestPriority, hce]
    rw [runStateCheckers, hchain]
    exact runCheckersAux_first m.stateCheckerIsActive _ pre ci (mid ++ cj :: post)
      CheckResult.noMaintenanceNeeded hpre hiact hi (by decide)
  constructor
  · simp only [prioritize, hres, hi, if_pos, ite_true]
  · simp only [prioritize, hres, hi, if_pos, ite_true]
    exact Nat.ne_of_lt hgt

/-- Witness for C1: checker "a" (priority 2, split) precedes checker "b"
(priority 5, join); prioritize returns priority 2 and the split type. -/
theorem claim_C1_witness :
    (prioritize exManagerAB exSpace 1 false).decision =
      { priority := 2, opType := MaintenanceOpType.SPLIT_BUCKET } ∧
    (prioritize exManagerAB exSpace 1 false).decision.priority ≠ 5 :=
  claim_C1_ordering_precedence exManagerAB exSpace 1 false exEntry
    ({ mkContext exSpace 1 with entry := exEntry }) (by decide) rfl
    [] [] [] exCheckerA exCheckerB rfl
    (by intro k hk; exact absurd hk (List.not_mem_nil k))
    rfl (by decide) rfl (by decide) (by decide)

/-- C5: no-op stability: when every active checker returns the
no-maintenance-needed sentinel, generate returns no operation and
prioritize returns a priority not requiring maintenance paired with the
OPERATION_COUNT sentinel type. -/
theorem claim_C5_noop_stability
    (m : IdealStateManager) (space : DistributorBucketSpace) (bucket : Nat) (flag : Bool)
    (e : Entry) (c : Context)
    (hce : getEntryForPrimaryBucket (mkContext space bucket) = some e)
    (hc : c = { mkContext space bucket with entry := e })
    (hall : ∀ chk ∈ m.stateCheckers, m.stateCheckerIsActive chk.name = true →
        (chk.check c).1 = CheckResult.noMaintenanceNeeded) :
    (generate m space bucket flag).op = none ∧
    (prioritize m space bucket flag).decision.priority = 0 ∧
    requiresMaintenance (prioritize m space bucket flag).decision.priority = false ∧
    (prioritize m space bucket flag).decision.opType = MaintenanceOpType.OPERATION_COUNT := by
  subst hc
  have hres : (generateHighestPriority m space bucket flag).result
      = CheckResult.noMaintenanceNeeded := by
    simp only [generateHighestPriority, hce]
    rw [runStateCheckers]
    exact runCheckersAux_none_flag m.stateCheckerIsActive _ m.stateCheckers
      CheckResult.noMaintenanceNeeded
      (fun k hk ha => by rw [hall k hk ha]; decide)
  refine ⟨?_, ?_, ?_, ?_⟩ <;>
    simp [generate, prioritize, hres, CheckResult.noMaintenanceNeeded, requiresMaintenance]

/-- Witness for C5: a single always-declining checker yields no operation
and the no-maintenance sentinel decision. -/
theorem claim_C5_witness :
    (generate exManagerNo exSpace 1 false).op = none ∧
    (prioritize exManagerNo exSpace 1 false).decision.priority = 0 ∧
    requiresMaintenance (prioritize exManagerNo exSpace 1 false).decision.priority = false ∧
    (prioritize exManagerNo exSpace 1 false).decision.opType
      = MaintenanceOpType.OPERATION_COUNT :=
  claim_C5_noop_stability exManagerNo exSpace 1 false exEntry
    ({ mkContext exSpace 1 with entry := exEntry }) (by decide) rfl (by decide)

/-- C7: a phantom-replica anomaly (the primary entry referencing a node
whose state is not Up/Initializing/Retired) is logged on the first
evaluation, which sets the warning flag, and a second, otherwise-identical
evaluation logs nothing. -/
theorem claim_C7_phantom_logged_once
    (m : IdealStateManager) (space : DistributorBucketSpace) (bucket : Nat) (e : Entry)
    (hce : getEntryForPrimaryBucket (mkContext space bucket) = some e)
    (n : Nat) (hn : n ∈ e.nodes)
    (hbad : (space.clusterState n).oneOf_uir = false) :
    (generateHighestPriority m space bucket false).logs ≠ [] ∧
    (generateHighestPriority m space bucket false).flag = true ∧
    (generateHighestPriority m space bucket
        (generateHighestPriority m space bucket false).flag).logs = [] := by
  have hscan := verify_scan_bad space.clusterState e.bucketId e.nodes n hn hbad
  have h2 : (generateHighestPriority m space bucket false).flag = true := by
    simp only [generateHighestPriority, hce, verify_only_live_nodes_in_context]
    simpa [mkContext] using hscan.2
  refine ⟨?_, h2, ?_⟩
  · simp only [generateHighestPriority, hce, verify_only_live_nodes_in_context]
    simpa [mkContext] using hscan.1
  · rw [h2]
    simp [generateHighestPriority, hce, verify_only_live_nodes_in_context]

/-- Witness for C7: with bucket 1's replica on a Down node, the first
evaluation logs and sets the flag; the repeated evaluation logs nothing. -/
theorem claim_C7_witness :
    (generateHighestPriority exManagerAB exSpaceDown 1 false).logs ≠ [] ∧
    (generateHighestPriority exManagerAB exSpaceDown 1 false).flag = true ∧
    (generateHighestPriority exManagerAB exSpaceDown 1
        (generateHighestPriority exManagerAB exSpaceDown 1 false).flag).logs = [] :=
  claim_C7_phantom_logged_once exManagerAB exSpaceDown 1 exEntry
    (by decide) 0 (by decide) (by decide)

/-- C8: the liveness check is not fatal: with a resolvable primary entry the
evaluation still runs the checker chain, the returned verdict and
statistics are exactly those of runStateCheckers, and neither the decision
of prioritize nor the operation of generate depends on the warning flag. -/
theorem claim_C8_liveness_check_nonfatal
    (m : IdealStateManager) (space : DistributorBucketSpace) (bucket : Nat)
    (flag flag2 : Bool) (e : Entry) (c : Context)
    (hce : getEntryForPrimaryBucket (mkContext space bucket) = some e)
    (hc : c = { mkContext space bucket with entry := e }) :
    (generateHighestPriority m space bucket flag).result = (runStateCheckers m c).1 ∧
    (generateHighestPriority m space bucket flag).stats = (runStateCheckers m c).2.1 ∧
    (generateHighestPriority m space bucket flag).invoked = (runStateCheckers m c).2.2 ∧
    (prioritize m space bucket flag).decision = (prioritize m space bucket flag2).decision ∧
    (generate m space bucket flag).op = (generate m space bucket flag2).op := by
  subst hc
  refine ⟨?_, ?_, ?_, ?_, ?_⟩ <;>
    simp [prioritize, generate, generateHighestPriority, hce]

/-- Witness for C8: with every node Down, the decision for bucket 1 is the
same whether or not the warning flag is already set. -/
theorem claim_C8_witness :
    (generateHighestPriority exManagerAB exSpaceDown 1 false).result
      = (runStateCheckers exManagerAB
          { mkContext exSpaceDown 1 with entry := exEntry }).1 ∧
    (generateHighestPriority exManagerAB exSpaceDown 1 false).stats
      = (runStateCheckers exManagerAB
          { mkContext exSpaceDown 1 with entry := exEntry }).2.1 ∧
    (generateHighestPriority exManagerAB exSpaceDown 1 false).invoked
      = (runStateCheckers exManagerAB
          { mkContext exSpaceDown 1 with entry := exEntry }).2.2 ∧
    (prioritize exManagerAB exSpaceDown 1 false).decision
      = (prioritize exManagerAB exSpaceDown 1 true).decision ∧
    (generate exManagerAB exSpaceDown 1 false).op
      = (generate exManagerAB exSpaceDown 1 true).op :=
  claim_C8_liveness_check_nonfatal exManagerAB exSpaceDown 1 false true exEntry
    ({ mkContext exSpaceDown 1 with entry := exEntry }) (by decide) rfl

/-- C2 counterexample: with the single checker "a" disabled by the
configuration, generateAll still evaluates it, collects its operation and
its statistics events — the disabled checker does contribute on the
generateAll path, contrary to the claim's "every evaluation path". -/
theorem claim_C2_counterexample :
    exManagerDisabledA.stateCheckerIsActive exCheckerA.name = false ∧
    (generateAll exManagerDisabledA exSpace 1 false).ops ≠ [] ∧
    (generateAll exManagerDisabledA exSpace 1 false).stats ≠ [] ∧
    (generateAll exManagerDisabledA exSpace 1 false).invoked = [exCheckerA.name] := by
  decide

/-- C2 (amended): a checker disabled by name contributes neither to the
decision nor to the statistics on the prioritize and generate paths —
removing it from the chain changes nothing there — while the generateAll
path does not consult the activation configuration at all. -/
theorem claim_C2_amended_disabled_checker_exclusion
    (m : IdealStateManager) (space : DistributorBucketSpace) (bucket : Nat) (flag : Bool)
    (pre post : List StateChecker) (chk : StateChecker)
    (hchain : m.stateCheckers = pre ++ chk :: post)
    (hdis : m.stateCheckerIsActive chk.name = false)
    (cfg2 : String → Bool) :
    prioritize m space bucket flag =
      prioritize { m with stateCheckers := pre ++ post } space bucket flag ∧
    generate m space bucket flag =
      generate { m with stateCheckers := pre ++ post } space bucket flag ∧
    generateAll m space bucket flag =
      generateAll { m with stateCheckerIsActive := cfg2 } space bucket flag := by
  have hrun : ∀ c : Context, runStateCheckers m c
      = runStateCheckers { m with stateCheckers := pre ++ post } c := by
    intro c
    simp only [runStateCheckers, hchain]
    exact runCheckersAux_skip m.stateCheckerIsActive c chk hdis pre post _
  have hghp : ∀ fl : Bool, generateHighestPriority m space bucket fl
      = generateHighestPriority { m with stateCheckers := pre ++ post } space bucket fl := by
    intro fl
    cases hg : getEntryForPrimaryBucket (mkContext space bucket) with
    | none => simp [generateHighestPriority, hg]
    | some x => simp [generateHighestPriority, hg, hrun]
  refine ⟨?_, ?_, ?_⟩
  · simp [prioritize, hghp]
  · simp [generate, hghp]
  · rfl

/-- Witness for C2 (amended): disabling checker "a" in the chain
[exCheckerNo, exCheckerA] makes prioritize and generate behave as if the
chain were [exCheckerNo], and generateAll ignores the configuration. -/
theorem claim_C2_witness :
    prioritize exManagerMixed exSpace 1 false =
      prioritize { exManagerMixed with stateCheckers := [exCheckerNo] } exSpace 1 false ∧
    generate exManagerMixed exSpace 1 false =
      generate { exManagerMixed with stateCheckers := [exCheckerNo] } exSpace 1 false ∧
    generateAll exManagerMixed exSpace 1 false =
      generateAll { exManagerMixed with stateCheckerIsActive := fun _ => true }
        exSpace 1 false :=
  claim_C2_amended_disabled_checker_exclusion exManagerMixed exSpace 1 false
    [exCheckerNo] [] exCheckerA rfl (by decide) (fun _ => true)

/-- C4: generateAll completeness: with a resolvable primary entry, every
checker active and each checker's verdict materializable exactly when it
reports maintenance, generateAll returns one operation per flagging checker
in chain order (so exactly k operations, regardless of priorities), while
generate returns exactly the operation materialized from the first flagging
checker in the declared order. -/
theorem claim_C4_generateAll_completeness
    (m : IdealStateManager) (space : DistributorBucketSpace) (bucket : Nat) (flag : Bool)
    (e : Entry) (c : Context)
    (hce : getEntryForPrimaryBucket (mkContext space bucket) = some e)
    (hc : c = { mkContext space bucket with entry := e })
    (hact : ∀ chk ∈ m.stateCheckers, m.stateCheckerIsActive chk.name = true)
    (hmat : ∀ chk ∈ m.stateCheckers,
        ((chk.check c).1.createOperation).isSome = checkerFlags c chk)
    (pre post : List StateChecker) (f : StateChecker)
    (hchain : m.stateCheckers = pre ++ f :: post)
    (hpre : ∀ k ∈ pre, checkerFlags c k = false)
    (hf : checkerFlags c f = true) :
    (generateAll m space bucket flag).ops
      = m.stateCheckers.filterMap (fun chk => (chk.check c).1.createOperation) ∧
    (generateAll m space bucket flag).ops.length
      = (m.stateCheckers.filter (checkerFlags c)).length ∧
    (generate m space bucket flag).op
      = ((f.check c).1.createOperation).map setIdealStateManagerRef ∧
    ((generate m space bucket flag).op).isSome = true := by
  subst hc
  have hfmem : f ∈ m.stateCheckers := by
    rw [hchain]; exact List.mem_append_right pre (List.mem_cons_self f post)
  have hops : (generateAll m space bucket flag).ops
      = m.stateCheckers.filterMap
          (fun chk => (chk.check { mkContext space bucket with entry := e }).1.createOperation) := by
    simp only [generateAll, hce]
    exact generateAllAux_ops _ m.stateCheckers
  have hres : (generateHighestPriority m space bucket flag).result
      = (f.check { mkContext space bucket with entry := e }).1 := by
    simp only [generateHighestPriority, hce]
    rw [runStateCheckers, hchain]
    exact runCheckersAux_first m.stateCheckerIsActive _ pre f post
      CheckResult.noMaintenanceNeeded
      (fun k hk _ => hpre k hk) (hact f hfmem) hf (by decide)
  have hgen : (generate m space bucket flag).op
      = ((f.check { mkContext space bucket with entry := e }).1.createOperation).map
          setIdealStateManagerRef := by
    simp only [generate, hres]
  refine ⟨hops, ?_, hgen, ?_⟩
  · rw [hops]
    exact length_filterMap_eq_length_filter _ _ m.stateCheckers hmat
  · have hmatf := hmat f hfmem
    rw [hf] at hmatf
    cases hop : (f.check { mkContext space bucket with entry := e }).1.createOperation with
    | none => rw [hop] at hmatf; simp at hmatf
    | some op0 => rw [hgen, hop]; rfl

/-- Witness for C4: both checkers of exManagerAB flag, so generateAll
returns two operations and generate returns checker "a"'s operation. -/
theorem claim_C4_witness :
    (generateAll exManagerAB exSpace 1 false).ops
      = exManagerAB.stateCheckers.filterMap
          (fun chk => (chk.check
            { mkContext exSpace 1 with entry := exEntry }).1.createOperation) ∧
    (generateAll exManagerAB exSpace 1 false).ops.length
      = (exManagerAB.stateCheckers.filter
          (checkerFlags { mkContext exSpace 1 with entry := exEntry })).length ∧
    (generate exManagerAB exSpace 1 false).op
      = ((exCheckerA.check
          { mkContext exSpace 1 with entry := exEntry }).1.createOperation).map
            setIdealStateManagerRef ∧
    ((generate exManagerAB exSpace 1 false).op).isSome = true :=
  claim_C4_generateAll_completeness exManagerAB exSpace 1 false exEntry
    ({ mkContext exSpace 1 with entry := exEntry }) (by decide) rfl
    (by intro chk hk; rfl) (by decide)
    [] [exCheckerB] exCheckerA rfl
    (by intro k hk; exact absurd hk (List.not_mem_nil k)) (by decide)

/-- C6: generateInterceptingSplit consults only the split checker and
performs no database family or sibling lookup (its result depends on the
bucket space only through the cluster state); it returns no operation when
the entry is invalid or the split checker declines, and a returned
operation carries the caller-supplied priority and the manager
back-reference. -/
theorem claim_C6_intercepting_split_isolation
    (m : IdealStateManager) (space space2 : DistributorBucketSpace)
    (e : Entry) (pri : Nat) (flag : Bool)
    (hcs : space2.clusterState = space.clusterState) :
    (generateInterceptingSplit m space e pri flag).invoked
      = (if e.valid then [m.splitBucketStateChecker.name] else []) ∧
    (e.valid = false → (generateInterceptingSplit m space e pri flag).op = none) ∧
    ((m.splitBucketStateChecker.check (interceptContext space e)).1.createOperation = none →
        (generateInterceptingSplit m space e pri flag).op = none) ∧
    (∀ op, (generateInterceptingSplit m space e pri flag).op = some op →
        op.priority = pri ∧ op.hasManagerRef = true) ∧
    generateInterceptingSplit m space2 e pri flag
      = generateInterceptingSplit m space e pri flag := by
  refine ⟨?_, ?_, ?_, ?_, ?_⟩
  · by_cases hv : e.valid <;> simp [generateInterceptingSplit, hv]
  · intro hv; simp [generateInterceptingSplit, hv]
  · intro hdecl
    by_cases hv : e.valid <;> simp [generateInterceptingSplit, hv, hdecl]
  · intro op hop
    by_cases hv : e.valid
    · simp only [generateInterceptingSplit, hv, if_pos, ite_true] at hop
      cases hcr : (m.splitBucketStateChecker.check (interceptContext space e)).1.createOperation with
      | none => rw [hcr] at hop; simp at hop
      | some op0 =>
        rw [hcr] at hop
        simp only [Option.map_some', Option.some.injEq] at hop
        rw [← hop]
        exact ⟨rfl, rfl⟩
    · simp [generateInterceptingSplit, hv] at hop
  · simp [generateInterceptingSplit, interceptContext, hcs]

/-- Witness for C6: a valid entry against the always-splitting checker
yields exactly the split checker consultation, and the returned operation
carries priority 7 with the manager back-reference. -/
theorem claim_C6_witness :
    (generateInterceptingSplit exManagerAB exSpace exEntry 7 false).invoked
      = (if exEntry.valid then [exManagerAB.splitBucketStateChecker.name] else []) ∧
    ({ priority := 7, hasManagerRef := true, payload := 1 } : IdealStateOperation).priority = 7 ∧
    ({ priority := 7, hasManagerRef := true, payload := 1 } : IdealStateOperation).hasManagerRef
      = true :=
  ⟨(claim_C6_intercepting_split_isolation exManagerAB exSpace exSpace exEntry 7 false rfl).1,
   ((claim_C6_intercepting_split_isolation exManagerAB exSpace exSpace exEntry 7 false rfl).2.2.2.1
      { priority := 7, hasManagerRef := true, payload := 1 } (by decide)).1,
   ((claim_C6_intercepting_split_isolation exManagerAB exSpace exSpace exEntry 7 false rfl).2.2.2.1
      { priority := 7, hasManagerRef := true, payload := 1 } (by decide)).2⟩
